import Mathlib

/-!
Verification of `blueprints/create_pptx.py` and `function_app.py` from the
pptx-auto-agent repository: a serverless HTTP endpoint that asks a
text-generation service for a slide outline, assembles a presentation from
it, uploads the result to blob storage, and returns the bytes to the caller.

The embedding models the two handlers `auto_ppt` and `ping` as pure
functions parameterised by the behaviour of the external collaborators
(the generation endpoint, the JSON parser, the document serializer, and
the blob-storage client), following the control flow of the source.
-/

namespace PptxAgent

/-- A parsed outline entry, the shape `json.loads` is expected to yield:
`{ "title": ..., "bullets": [...] }` (create_pptx.py lines 29-36, 63). -/
structure Slide where
  title : String
  bullets : List String
deriving Repr, DecidableEq

/-- The parsed outline: the JSON array of slide entries (line 63). -/
abbrev Outline := List Slide

/-- One paragraph placed into a content slide's body text frame:
`p.text = b; p.font.size = Pt(18)` (lines 81-83). -/
structure Paragraph where
  text : String
  fontSizePt : Nat
deriving Repr, DecidableEq

/-- The base document the assembler starts from. -/
inductive DeckBase where
  | defaultBlank
  | fromTemplate (path : String)
deriving Repr, DecidableEq

/-- One slide of the assembled deck: the title shape text, the optional
secondary placeholder text, and the body paragraphs. -/
structure DeckSlide where
  title : String
  subtitle : Option String
  paragraphs : List Paragraph
deriving Repr, DecidableEq

/-- The assembled in-memory presentation. -/
structure Deck where
  base : DeckBase
  slides : List DeckSlide
deriving Repr, DecidableEq

/-- Line 66 is `prs = Presentation()`: the constructor is called with no
template argument, so the document base never depends on whether a
template file exists at any path; the argument records the template
situation of the environment and is ignored, as in the source. -/
def assemblerBase (_templateAtKnownPath : Option String) : DeckBase :=
  DeckBase.defaultBlank

/-- A content slide built from one outline entry (lines 75-83): title from
the entry, `tf.clear()` then one appended paragraph per bullet, in order,
each at `Pt(18)`. -/
def contentSlide (s : Slide) : DeckSlide :=
  { title := s.title
    subtitle := none
    paragraphs := s.bullets.map (fun b => { text := b, fontSizePt := 18 }) }

/-- The deck-assembly step of `auto_ppt` (lines 66-84): a cover slide from
`slides[0]` with the timestamp subtitle, then one content slide per
remaining entry. `slides[0]` on an empty outline raises `IndexError`,
modelled as `none`. -/
def buildDeck (outline : Outline) (ts : String)
    (templateAtKnownPath : Option String) : Option Deck :=
  match outline with
  | [] => none
  | s0 :: rest =>
    some { base := assemblerBase templateAtKnownPath
           slides :=
             { title := s0.title
               subtitle := some ("Update Date – " ++ ts)
               paragraphs := [] } :: rest.map contentSlide }

/-- Result of one call to `client.chat.completions.create` in `auto_ppt`:
either a transient fault (timeout / rate limit) is raised, or a content
string is returned. Indexed by attempt number so that endpoints that fail
a given number of times before succeeding can be described. -/
inductive GenResult where
  | transient
  | ok (content : String)
deriving Repr, DecidableEq

/-- The ways the generation step of `auto_ppt` can raise. -/
inductive Fault where
  | transientFault
  | parseFault
  | emptyOutline
deriving Repr, DecidableEq

instance instDecEqExcept {ε α : Type} [DecidableEq ε] [DecidableEq α] :
    DecidableEq (Except ε α)
  | Except.error e, Except.error f =>
    if h : e = f then isTrue (by rw [h])
    else isFalse (by intro hc; cases hc; exact h rfl)
  | Except.error _, Except.ok _ => isFalse (by intro hc; cases hc)
  | Except.ok _, Except.error _ => isFalse (by intro hc; cases hc)
  | Except.ok a, Except.ok b =>
    if h : a = b then isTrue (by rw [h])
    else isFalse (by intro hc; cases hc; exact h rfl)

/-- Trace of the generation step: how many endpoint calls were made, the
backoff delays slept between calls, and the outcome. -/
structure GenOutcome where
  attempts : Nat
  delays : List Nat
  result : Except Fault Outline
deriving Repr, DecidableEq

/-- The outline-generation step of `auto_ppt` (lines 55-63): a single call
to the endpoint, its content handed to `json.loads` (modelled by the
`parse` parameter). There is no retry loop and no sleep in the source: a
transient fault on the one call propagates, as does a parse failure. -/
def generateOutline (endpoint : Nat → GenResult)
    (parse : String → Option Outline) : GenOutcome :=
  match endpoint 0 with
  | GenResult.transient =>
    { attempts := 1, delays := [], result := Except.error Fault.transientFault }
  | GenResult.ok s =>
    match parse s with
    | none =>
      { attempts := 1, delays := [], result := Except.error Fault.parseFault }
    | some o =>
      { attempts := 1, delays := [], result := Except.ok o }

/-- Behaviour of the blob-storage collaborator for one request: each field
is the outcome of the corresponding client call in lines 91-107
(`from_connection_string`, `cc.exists()`, `cc.create_container()`,
`cc.upload_blob`), either a value or a raised exception message. -/
structure StorageEnv where
  connect : Except String String
  containerExists : Except String Bool
  createContainer : Except String Unit
  upload : Except String Unit

/-- The filename computed at line 69: `f"<ts>_auto_docs.pptx"`. -/
def fileNameOf (ts : String) : String :=
  ts ++ "_auto_docs.pptx"

/-- The upload step of `auto_ppt` (lines 90-115): sequential storage calls
inside one `try`, any exception turned into the advisory string
`"Blob upload failed: <ex>"`. Returns the `upload_status` string together
with the data passed to `upload_blob`, when that call was reached. -/
def publish (env : StorageEnv) (bytes : List Nat) (fileName : String) :
    String × Option (List Nat) :=
  match env.connect with
  | Except.error m => ("Blob upload failed: " ++ m, none)
  | Except.ok account =>
    match env.containerExists with
    | Except.error m => ("Blob upload failed: " ++ m, none)
    | Except.ok ex =>
      match (if ex then Except.ok () else env.createContainer) with
      | Except.error m => ("Blob upload failed: " ++ m, none)
      | Except.ok _ =>
        match env.upload with
        | Except.error m => ("Blob upload failed: " ++ m, some bytes)
        | Except.ok _ =>
          ("Uploaded to Blob Storage: https://" ++ account ++
              ".blob.core.windows.net/pptstorage/generated/" ++ fileName,
            some bytes)

/-- The exception message of the first storage call that raises while
`publish` runs, if any: the failure the `except` block at line 114 sees. -/
def storageFailureMsg (env : StorageEnv) : Option String :=
  match env.connect with
  | Except.error m => some m
  | Except.ok _ =>
    match env.containerExists with
    | Except.error m => some m
    | Except.ok ex =>
      match (if ex then Except.ok () else env.createContainer) with
      | Except.error m => some m
      | Except.ok _ =>
        match env.upload with
        | Except.error m => some m
        | Except.ok _ => none

/-- The HTTP response built at lines 118-125. -/
structure HttpResp where
  statusCode : Nat
  body : List Nat
  mimetype : String
  contentDisposition : String
  uploadStatus : String
deriving Repr, DecidableEq

/-- What one successful run of the `auto_ppt` handler produces: the HTTP
response, plus the data that was handed to `upload_blob` (if reached). -/
structure RunOutput where
  response : HttpResp
  uploaded : Option (List Nat)
deriving Repr, DecidableEq

/-- The `auto_ppt` handler (lines 44-125), parameterised by the external
collaborators: the generation endpoint, the JSON parser, the
document serializer (`prs.save` into the buffer, read back twice with
`buf.getvalue()`), the timestamp, the template situation, and the storage
behaviour. `Except.error` is an exception propagating to the framework. -/
def autoPpt (endpoint : Nat → GenResult) (parse : String → Option Outline)
    (save : Deck → List Nat) (ts : String)
    (templateAtKnownPath : Option String) (env : StorageEnv) :
    Except Fault RunOutput :=
  match (generateOutline endpoint parse).result with
  | Except.error f => Except.error f
  | Except.ok outline =>
    match buildDeck outline ts templateAtKnownPath with
    | none => Except.error Fault.emptyOutline
    | some deck =>
      let bytes := save deck
      let fileName := fileNameOf ts
      let pub := publish env bytes fileName
      Except.ok
        { response :=
            { statusCode := 200
              body := bytes
              mimetype := "application/vnd.openxmlformats-officedocument.presentationml.presentation"
              contentDisposition :=
                "attachment; filename=\"" ++ fileName ++ "\""
              uploadStatus := pub.fst }
          uploaded := pub.snd }

/-- A chat-completion request as constructed in the source: which tuning
fields are present and with what values. -/
structure ChatRequest where
  model : String
  maxCompletionTokens : Option Nat
  temperature : Option Nat
  timeout : Option Nat
deriving Repr, DecidableEq

/-- The request built by `auto_ppt` at lines 55-62: only the model and
`max_completion_tokens=600` are given; no temperature and no timeout
appear in the call. -/
def autoPptRequest : ChatRequest :=
  { model := "gpt-4o"
    maxCompletionTokens := some 600
    temperature := none
    timeout := none }

/-- The request built by `ping` at lines 136-144: `max_completion_tokens=5`
and `timeout=15`; no temperature. -/
def pingRequest : ChatRequest :=
  { model := "gpt-4o"
    maxCompletionTokens := some 5
    temperature := none
    timeout := some 15 }

/-- Outcome of the generation call inside `ping`: either a content string,
or an exception carrying `str(e)` and `traceback.format_exc()`. -/
inductive PingCall where
  | ok (content : String)
  | exn (detail : String) (trace : String)
deriving Repr, DecidableEq

/-- Body of the JSON payload `ping` serializes (lines 146, 151-152). -/
inductive PingBody where
  | success (answer : String)
  | error (detail : String) (trace : String)
deriving Repr, DecidableEq

/-- The response of the `ping` handler. -/
structure PingResp where
  statusCode : Nat
  body : PingBody
deriving Repr, DecidableEq

/-- The `ping` handler (lines 129-154): on success, 200 with the stripped
reply; on any exception, 500 with detail and trace. The `try`/`except`
catches everything, so the handler is a total function. -/
def ping (call : PingCall) : PingResp :=
  match call with
  | PingCall.ok content =>
    { statusCode := 200, body := PingBody.success content.trim }
  | PingCall.exn detail trace =>
    { statusCode := 500, body := PingBody.error detail trace }

/-- Titles of a deck's slides, in order. -/
def deckTitles (d : Deck) : List String :=
  d.slides.map DeckSlide.title

/-- Paragraph lists of a deck's slides, in order. -/
def deckParagraphs (d : Deck) : List (List Paragraph) :=
  d.slides.map DeckSlide.paragraphs

/- Concrete fixtures used in witnesses and counterexamples. -/

/-- An endpoint that answers every attempt with the same content. -/
def epOk : Nat → GenResult := fun _ => GenResult.ok "outline-json"

/-- An endpoint that fails transiently exactly once (attempt 0), then
succeeds on every later attempt. -/
def epFailOnce : Nat → GenResult := fun n =>
  if n = 0 then GenResult.transient else GenResult.ok "outline-json"

/-- An endpoint that always fails transiently. -/
def epAlwaysFail : Nat → GenResult := fun _ => GenResult.transient

/-- A parser accepting exactly the fixture content. -/
def parseFixed : String → Option Outline := fun s =>
  if s = "outline-json" then some [Slide.mk "T" []] else none

/-- A parser that rejects every response text. -/
def parseNone : String → Option Outline := fun _ => none

/-- A concrete serializer for witnesses: one byte per deck, the slide
count. -/
def saveLen : Deck → List Nat := fun d => [d.slides.length]

/-- A storage environment in which every call succeeds. -/
def envAllOk : StorageEnv :=
  { connect := Except.ok "acct"
    containerExists := Except.ok true
    createContainer := Except.ok ()
    upload := Except.ok () }

/-- A storage environment in which the upload call raises. -/
def envUploadFails : StorageEnv :=
  { connect := Except.ok "acct"
    containerExists := Except.ok true
    createContainer := Except.ok ()
    upload := Except.error "boom" }

/-- The two-entry example outline from the specification. -/
def dubaiOutline : Outline :=
  [ { title := "Dubai Overview", bullets := [] }
  , { title := "Burj Khalifa"
      bullets := ["Tallest building", "Observation deck", "Evening light show"] } ]

/- Helper lemmas. -/

theorem publish_fail_status (env : StorageEnv) (b : List Nat) (f m : String)
    (h : storageFailureMsg env = some m) :
    (publish env b f).fst = "Blob upload failed: " ++ m := by
  cases hc : env.connect with
  | error me =>
    simp [storageFailureMsg, hc] at h
    subst h; simp [publish, hc]
  | ok acct =>
    cases he : env.containerExists with
    | error me =>
      simp [storageFailureMsg, hc, he] at h
      subst h; simp [publish, hc, he]
    | ok ex =>
      cases ex with
      | false =>
        cases hcr : env.createContainer with
        | error me =>
          simp [storageFailureMsg, hc, he, hcr] at h
          subst h; simp [publish, hc, he, hcr]
        | ok u =>
          cases hu : env.upload with
          | error me =>
            simp [storageFailureMsg, hc, he, hcr, hu] at h
            subst h; simp [publish, hc, he, hcr, hu]
          | ok v => simp [storageFailureMsg, hc, he, hcr, hu] at h
      | true =>
        cases hu : env.upload with
        | error me =>
          simp [storageFailureMsg, hc, he, hu] at h
          subst h; simp [publish, hc, he, hu]
        | ok v => simp [storageFailureMsg, hc, he, hu] at h

theorem publish_snd_eq (env : StorageEnv) (b : List Nat) (f : String)
    (d : List Nat) (h : (publish env b f).snd = some d) : d = b := by
  cases hc : env.connect with
  | error me => simp [publish, hc] at h
  | ok acct =>
    cases he : env.containerExists with
    | error me => simp [publish, hc, he] at h
    | ok ex =>
      cases ex with
      | false =>
        cases hcr : env.createContainer with
        | error me => simp [publish, hc, he, hcr] at h
        | ok u =>
          cases hu : env.upload with
          | error me => simp [publish, hc, he, hcr, hu] at h; subst h; rfl
          | ok v => simp [publish, hc, he, hcr, hu] at h; subst h; rfl
      | true =>
        cases hu : env.upload with
        | error me => simp [publish, hc, he, hu] at h; subst h; rfl
        | ok v => simp [publish, hc, he, hu] at h; subst h; rfl

/-- C1: for every parsed outline with at least one entry, the assembled
deck has exactly as many slides as the outline has entries; slide 0 is the
cover carrying `outline[0].title` and no bullet paragraphs; each later
slide i carries `outline[i].title` and exactly one paragraph per bullet of
`outline[i].bullets`, in input order, at the fixed 18pt font size. -/
theorem auto_ppt_deck_shape (o : Outline) (ts : String) (tmpl : Option String)
    (h : o ≠ []) :
    ∃ d, buildDeck o ts tmpl = some d ∧
      d.slides.length = o.length ∧
      deckTitles d = o.map Slide.title ∧
      d.slides.head?.map DeckSlide.paragraphs = some [] ∧
      d.slides.tail.map DeckSlide.paragraphs
        = o.tail.map (fun s => s.bullets.map (fun b => Paragraph.mk b 18)) := by
  cases o with
  | nil => exact absurd rfl h
  | cons s0 rest =>
    refine ⟨_, rfl, ?_, ?_, ?_, ?_⟩
    · simp [buildDeck]
    · simp [buildDeck, deckTitles, contentSlide]
    · simp [buildDeck]
    · simp [buildDeck, contentSlide]

/-- Witness for C1 at the specification's two-entry example: the deck has
2 slides, and the second slide has exactly 3 bullet paragraphs. -/
theorem auto_ppt_deck_shape_witness :
    (∃ d, buildDeck dubaiOutline "20250101-000000" none = some d ∧
      d.slides.length = dubaiOutline.length ∧
      deckTitles d = dubaiOutline.map Slide.title ∧
      d.slides.head?.map DeckSlide.paragraphs = some [] ∧
      d.slides.tail.map DeckSlide.paragraphs
        = dubaiOutline.tail.map
            (fun s => s.bullets.map (fun b => Paragraph.mk b 18))) ∧
    (buildDeck dubaiOutline "20250101-000000" none).map
        (fun d => d.slides.map (fun s => s.paragraphs.length)) = some [0, 3] :=
  ⟨auto_ppt_deck_shape dubaiOutline "20250101-000000" none (by decide),
    by decide⟩

/-- C2 counterexample: against an endpoint that fails transiently exactly
once (k = 1) and then succeeds with parseable content, `auto_ppt` does NOT
return the successful result after k + 1 = 2 attempts: the single call is
made, the transient fault propagates, and no retry happens. -/
theorem gen_retry_counterexample :
    epFailOnce 0 = GenResult.transient ∧
    epFailOnce 1 = GenResult.ok "outline-json" ∧
    parseFixed "outline-json" = some [Slide.mk "T" []] ∧
    (generateOutline epFailOnce parseFixed).result
      = Except.error Fault.transientFault ∧
    ¬ ((generateOutline epFailOnce parseFixed).result
          = Except.ok [Slide.mk "T" []] ∧
        (generateOutline epFailOnce parseFixed).attempts = 2) := by
  decide

/-- C2 amended: the generation step of `auto_ppt` makes exactly one
endpoint call with no backoff delays; only when the endpoint succeeds on
the first attempt (k = 0) is the successful result returned, after exactly
1 attempt and zero elapsed delay; a transient fault on the first attempt
propagates immediately instead of being retried. -/
theorem gen_no_retry (endpoint : Nat → GenResult)
    (parse : String → Option Outline) :
    (generateOutline endpoint parse).attempts = 1 ∧
    (generateOutline endpoint parse).delays = [] ∧
    (generateOutline endpoint parse).delays.sum ≤ 300 ∧
    (∀ s o, endpoint 0 = GenResult.ok s → parse s = some o →
      (generateOutline endpoint parse).result = Except.ok o) ∧
    (endpoint 0 = GenResult.transient →
      (generateOutline endpoint parse).result
        = Except.error Fault.transientFault) := by
  refine ⟨?_, ?_, ?_, ?_, ?_⟩
  · cases h : endpoint 0 with
    | transient => simp [generateOutline, h]
    | ok s => cases hp : parse s <;> simp [generateOutline, h, hp]
  · cases h : endpoint 0 with
    | transient => simp [generateOutline, h]
    | ok s => cases hp : parse s <;> simp [generateOutline, h, hp]
  · cases h : endpoint 0 with
    | transient => simp [generateOutline, h]
    | ok s => cases hp : parse s <;> simp [generateOutline, h, hp]
  · intro s o hs hp; simp [generateOutline, hs, hp]
  · intro hs; simp [generateOutline, hs]

/-- Witness for C2 amended: with an endpoint that succeeds immediately the
result is returned after one attempt, and with an always-failing endpoint
the transient fault propagates after one attempt. -/
theorem gen_no_retry_witness :
    (generateOutline epOk parseFixed).attempts = 1 ∧
    (generateOutline epOk parseFixed).result = Except.ok [Slide.mk "T" []] ∧
    (generateOutline epAlwaysFail parseFixed).result
      = Except.error Fault.transientFault :=
  ⟨(gen_no_retry epOk parseFixed).1,
    (gen_no_retry epOk parseFixed).2.2.2.1 "outline-json" [Slide.mk "T" []]
      rfl (by decide),
    (gen_no_retry epAlwaysFail parseFixed).2.2.2.2 rfl⟩

/-- C3: when the endpoint returns content that does not parse as the
expected outline structure, the generation step makes exactly one call
(zero retries, no delays) and the parse failure propagates out of the
`auto_ppt` handler as a fatal error rather than being caught. -/
theorem parse_failure_fatal (endpoint : Nat → GenResult)
    (parse : String → Option Outline) (save : Deck → List Nat) (ts : String)
    (tmpl : Option String) (env : StorageEnv) (s : String)
    (hs : endpoint 0 = GenResult.ok s) (hp : parse s = none) :
    (generateOutline endpoint parse).attempts = 1 ∧
    (generateOutline endpoint parse).delays = [] ∧
    autoPpt endpoint parse save ts tmpl env = Except.error Fault.parseFault := by
  have hg : (generateOutline endpoint parse).result
      = Except.error Fault.parseFault := by
    simp [generateOutline, hs, hp]
  refine ⟨?_, ?_, ?_⟩
  · simp [generateOutline, hs, hp]
  · simp [generateOutline, hs, hp]
  · simp [autoPpt, hg]

/-- Witness for C3: the rejecting parser makes `auto_ppt` fail fatally
after one endpoint call. -/
theorem parse_failure_fatal_witness :
    (generateOutline epOk parseNone).attempts = 1 ∧
    (generateOutline epOk parseNone).delays = [] ∧
    autoPpt epOk parseNone saveLen "20250101-000000" none envAllOk
      = Except.error Fault.parseFault :=
  parse_failure_fatal epOk parseNone saveLen "20250101-000000" none envAllOk
    "outline-json" rfl rfl

/-- C4 counterexample: against an endpoint that always fails transiently,
the generator does terminate with a failure, but at zero cumulative
elapsed delay — not after the cumulative elapsed time exceeds a
300-time-unit budget as the claim states. -/
theorem gen_exhaustion_counterexample :
    epAlwaysFail 0 = GenResult.transient ∧
    epAlwaysFail 1 = GenResult.transient ∧
    (generateOutline epAlwaysFail parseFixed).result
      = Except.error Fault.transientFault ∧
    (generateOutline epAlwaysFail parseFixed).delays.sum = 0 ∧
    ¬ (300 < (generateOutline epAlwaysFail parseFixed).delays.sum) := by
  decide

/-- C4 amended: against an endpoint that always fails transiently, the
generation step fails immediately after its single attempt, with zero
cumulative elapsed delay; it never retries, so it never retries
indefinitely. -/
theorem gen_fail_fast (endpoint : Nat → GenResult)
    (parse : String → Option Outline)
    (h : endpoint 0 = GenResult.transient) :
    (generateOutline endpoint parse).result
      = Except.error Fault.transientFault ∧
    (generateOutline endpoint parse).attempts = 1 ∧
    (generateOutline endpoint parse).delays.sum = 0 := by
  refine ⟨?_, ?_, ?_⟩ <;> simp [generateOutline, h]

/-- Witness for C4 amended at the always-failing endpoint. -/
theorem gen_fail_fast_witness :
    (generateOutline epAlwaysFail parseFixed).result
      = Except.error Fault.transientFault ∧
    (generateOutline epAlwaysFail parseFixed).attempts = 1 ∧
    (generateOutline epAlwaysFail parseFixed).delays.sum = 0 :=
  gen_fail_fast epAlwaysFail parseFixed rfl

/-- C5: when generation and assembly succeed, `auto_ppt` returns a 200
response whose body is the serialized deck for every storage behaviour
(the body does not depend on the storage environment), the
`X-Upload-Status` header carries the publish status, and whenever any
storage call raises, that header is the descriptive failure string built
from the exception — the request is never aborted by a storage fault. -/
theorem upload_failure_isolation (endpoint : Nat → GenResult)
    (parse : String → Option Outline) (save : Deck → List Nat) (ts : String)
    (tmpl : Option String) (env : StorageEnv) (s : String) (o : Outline)
    (hs : endpoint 0 = GenResult.ok s) (hp : parse s = some o)
    (hne : o ≠ []) :
    ∃ r, autoPpt endpoint parse save ts tmpl env = Except.ok r ∧
      r.response.statusCode = 200 ∧
      (∃ d, buildDeck o ts tmpl = some d ∧ r.response.body = save d) ∧
      r.response.uploadStatus
        = (publish env r.response.body (fileNameOf ts)).fst ∧
      (∀ m, storageFailureMsg env = some m →
        r.response.uploadStatus = "Blob upload failed: " ++ m) := by
  cases o with
  | nil => exact absurd rfl hne
  | cons s0 rest =>
    have hg : (generateOutline endpoint parse).result
        = Except.ok (s0 :: rest) := by
      simp [generateOutline, hs, hp]
    exact
      let d0 : Deck :=
        { base := assemblerBase tmpl,
          slides :=
            { title := s0.title,
              subtitle := some ("Update Date – " ++ ts),
              paragraphs := [] } :: rest.map contentSlide }
      let b0 := save d0
      let p0 := publish env b0 (fileNameOf ts)
      ⟨{ response :=
            { statusCode := 200,
              body := b0,
              mimetype := "application/vnd.openxmlformats-officedocument.presentationml.presentation",
              contentDisposition :=
                "attachment; filename=\"" ++ fileNameOf ts ++ "\"",
              uploadStatus := p0.fst },
          uploaded := p0.snd },
        by simp [autoPpt, hg, buildDeck], rfl, ⟨d0, rfl, rfl⟩, rfl,
        fun m hm => publish_fail_status env b0 (fileNameOf ts) m hm⟩

/-- Witness for C5 with a storage environment whose upload call raises. -/
theorem upload_failure_isolation_witness :
    ∃ r, autoPpt epOk parseFixed saveLen "20250101-000000" none envUploadFails
        = Except.ok r ∧
      r.response.statusCode = 200 ∧
      (∃ d, buildDeck [Slide.mk "T" []] "20250101-000000" none = some d ∧
        r.response.body = saveLen d) ∧
      r.response.uploadStatus
        = (publish envUploadFails r.response.body
            (fileNameOf "20250101-000000")).fst ∧
      (∀ m, storageFailureMsg envUploadFails = some m →
        r.response.uploadStatus = "Blob upload failed: " ++ m) :=
  upload_failure_isolation epOk parseFixed saveLen "20250101-000000" none
    envUploadFails "outline-json" [Slide.mk "T" []] rfl (by decide)
    (by decide)

/-- C6 counterexample: the chat-completion request `auto_ppt` builds at
lines 55-62 specifies no sampling temperature at all (in particular not
temperature 0) and no request timeout, so it is not sent with
deterministic sampling and an explicit timeout shorter than a retry
budget; only the response-size cap is present. -/
theorem request_tuning_counterexample :
    autoPptRequest.temperature ≠ some 0 ∧
    autoPptRequest.temperature = none ∧
    autoPptRequest.timeout = none ∧
    autoPptRequest.maxCompletionTokens = some 600 := by
  decide

/-- C6 amended: the generation request of `auto_ppt` carries only the
model name and a response-size cap of 600 completion tokens; it sets
neither a sampling temperature nor a request timeout (unlike the `ping`
request, which sets a 15-unit timeout). -/
theorem auto_ppt_request_fields :
    autoPptRequest.model = "gpt-4o" ∧
    autoPptRequest.maxCompletionTokens = some 600 ∧
    autoPptRequest.temperature = none ∧
    autoPptRequest.timeout = none ∧
    pingRequest.timeout = some 15 := by
  decide

/-- C7 counterexample: with a template file present at a known path, the
assembler still starts from the default blank document — the template is
never loaded, because the presentation constructor at line 66 is called
with no template argument. -/
theorem template_loading_counterexample :
    assemblerBase (some "template.pptx")
        ≠ DeckBase.fromTemplate "template.pptx" ∧
    assemblerBase (some "template.pptx") = DeckBase.defaultBlank := by
  decide

/-- C7 amended: the assembler always starts from the default blank
document definition; the assembled deck is independent of whether a
template file exists at any path (so a missing template is trivially
never an error). -/
theorem assembler_ignores_template (t : Option String) (o : Outline)
    (ts : String) :
    assemblerBase t = DeckBase.defaultBlank ∧
    buildDeck o ts t = buildDeck o ts none := by
  cases o <;> simp [assemblerBase, buildDeck]

/-- C8: the `ping` handler returns 200 with the trimmed model reply as a
success payload when the generation call succeeds, and 500 with an error
payload carrying the exception detail and traceback when it raises; being
a total function of the call outcome, it never propagates the exception. -/
theorem ping_spec (c : PingCall) :
    (∀ s, c = PingCall.ok s →
      ping c = { statusCode := 200, body := PingBody.success s.trim }) ∧
    (∀ d t, c = PingCall.exn d t →
      ping c = { statusCode := 500, body := PingBody.error d t }) ∧
    ((ping c).statusCode = 200 ∨ (ping c).statusCode = 500) := by
  refine ⟨?_, ?_, ?_⟩
  · intro s hsub; subst hsub; rfl
  · intro d t hsub; subst hsub; rfl
  · cases c <;> simp [ping]

/-- Witness for C8 on a concrete success and a concrete failure. -/
theorem ping_spec_witness :
    ping (PingCall.ok " pong ")
      = { statusCode := 200, body := PingBody.success (" pong ").trim } ∧
    ping (PingCall.exn "timeout" "Traceback ...")
      = { statusCode := 500, body := PingBody.error "timeout" "Traceback ..." } :=
  ⟨(ping_spec (PingCall.ok " pong ")).1 " pong " rfl,
    (ping_spec (PingCall.exn "timeout" "Traceback ...")).2.1 "timeout"
      "Traceback ..." rfl⟩

/-- C9: assembling the same outline twice (same template situation) at
possibly different timestamps yields decks with identical slide titles and
identical bullet paragraphs on every slide; only the timestamp subtitle of
the cover can differ. -/
theorem assemble_deterministic (o : Outline) (ts1 ts2 : String)
    (t : Option String) :
    (buildDeck o ts1 t).map deckTitles = (buildDeck o ts2 t).map deckTitles ∧
    (buildDeck o ts1 t).map deckParagraphs
      = (buildDeck o ts2 t).map deckParagraphs := by
  cases o <;> simp [buildDeck, deckTitles, deckParagraphs]

/-- C10: whenever `auto_ppt` completes and the upload call was reached,
the data handed to `upload_blob` is exactly the byte sequence returned as
the HTTP response body (both read from the same serialized buffer). -/
theorem uploaded_equals_body (endpoint : Nat → GenResult)
    (parse : String → Option Outline) (save : Deck → List Nat) (ts : String)
    (tmpl : Option String) (env : StorageEnv) (r : RunOutput)
    (d : List Nat) (hr : autoPpt endpoint parse save ts tmpl env = Except.ok r)
    (hu : r.uploaded = some d) :
    r.response.body = d := by
  unfold autoPpt at hr
  split at hr
  · cases hr
  · split at hr
    · cases hr
    · cases hr
      exact (publish_snd_eq env _ _ d hu).symm

/-- Witness for C10 on a concrete run in which every storage call
succeeds. -/
theorem uploaded_equals_body_witness :
    ({ response :=
        { statusCode := 200
          body := [1]
          mimetype := "application/vnd.openxmlformats-officedocument.presentationml.presentation"
          contentDisposition :=
            "attachment; filename=\"20250101-000000_auto_docs.pptx\""
          uploadStatus :=
            "Uploaded to Blob Storage: https://acct.blob.core.windows.net/pptstorage/generated/20250101-000000_auto_docs.pptx" }
       uploaded := some [1] } : RunOutput).response.body = [1] :=
  uploaded_equals_body epOk parseFixed saveLen "20250101-000000" none envAllOk
    _ [1] (by decide) (by decide)

end PptxAgent
